import Mathlib

/-!
Shallow embedding of `src/drawWithCursor.py`, a curses Etch-A-Sketch-style
terminal drawing program.

The terminal screen is modelled as the list of single-cell `addstr` paint
events issued since the last `stdscr.clear()`, newest last.  Curses calls
that touch no cell content (`refresh`, `curs_set`, `start_color`,
`init_pair`, logging) have no observable effect on the modelled state and
are omitted.  Python `int` is `Int`; the nullable `cursor_x` and `cursor_y`
attributes are `Option Int`.  A Python `raise` is `Except.error`; the error
constructors below name the distinct raise sites:
  Err.OutOfBounds   : the ValueError raised in `update_cursor` (line 118),
                      the OutOfBoundsError of the specification;
  Err.BadDistance   : the ValueError raised in `move_cursor` (line 156) for
                      a distance below 1, an InvalidArgument case;
  Err.BadDirection  : the ValueError raised in `move_cursor` (line 167) for
                      an unrecognized direction, an InvalidArgument case;
  Err.TypeFault     : the TypeError Python raises when arithmetic or a
                      comparison is applied to a `None` cursor coordinate.
-/

namespace DrawWithCursor

/-- The four members of the Python `Direction` enum (lines 12-16). -/
inductive Direction where
  | LEFT
  | RIGHT
  | UP
  | DOWN
deriving Repr, DecidableEq

/-- Distinct raise sites of the Python code; see the module comment. -/
inductive Err where
  | OutOfBounds
  | BadDistance
  | BadDirection
  | TypeFault
deriving Repr, DecidableEq

/-- One single-cell `stdscr.addstr(y, x, ch, color_pair(pair))` call.
A call without an explicit color pair is recorded with `pair = 0`. -/
structure Paint where
  y : Int
  x : Int
  ch : Char
  pair : Nat
deriving Repr, DecidableEq

/-- The immutable per-window configuration: the terminal size
(`curses.COLS`, `curses.LINES`), the constructor arguments of `Window`
(lines 23-38), and the derived initial cursor coordinates (lines 43-51). -/
structure Config where
  cols : Int
  lines : Int
  buffer_top : Int
  buffer_bottom : Int
  buffer_left : Int
  buffer_right : Int
  prev_point_char : Char
  curr_point_char : Char
  message : Option String
  draw_border : Bool
  initial_cursor_x : Int
  initial_cursor_y : Int
deriving Repr, DecidableEq

/-- The initial-coordinate derivation of `Window.__init__` (lines 43-51):
an omitted coordinate defaults to `buffer_left + 1` / `buffer_top + 2` with
a border and to `buffer_left` / `buffer_top + 1` without. -/
def window_init_config (cols lines : Int) (cursor_x cursor_y : Option Int)
    (buffer_top buffer_bottom buffer_left buffer_right : Int)
    (prev_point_char curr_point_char : Char) (message : Option String)
    (draw_border : Bool) : Config :=
  { cols := cols
    lines := lines
    buffer_top := buffer_top
    buffer_bottom := buffer_bottom
    buffer_left := buffer_left
    buffer_right := buffer_right
    prev_point_char := prev_point_char
    curr_point_char := curr_point_char
    message := message
    draw_border := draw_border
    initial_cursor_x :=
      match cursor_x with
      | none => if draw_border then buffer_left + 1 else buffer_left
      | some x => x
    initial_cursor_y :=
      match cursor_y with
      | none => if draw_border then buffer_top + 2 else buffer_top + 1
      | some y => y }

/-- The window and cursor boundaries set by `Window.update_boundaries`. -/
structure Bounds where
  min_x : Int
  min_y : Int
  max_x : Int
  max_y : Int
  cursor_min_x : Int
  cursor_max_x : Int
  cursor_min_y : Int
  cursor_max_y : Int
deriving Repr, DecidableEq

/-- `Window.update_boundaries` (lines 57-73): the window rectangle is
`min_x = buffer_left`, `min_y = buffer_top + 1`,
`max_x = COLS - 2 - buffer_right`, `max_y = LINES - 1 - buffer_bottom`;
the cursor rectangle shrinks each side by one when a border is drawn. -/
def update_boundaries (cols lines : Int)
    (buffer_top buffer_bottom buffer_left buffer_right : Int)
    (draw_border : Bool) : Bounds :=
  let min_x := buffer_left
  let min_y := buffer_top + 1
  let max_x := cols - 2 - buffer_right
  let max_y := lines - 1 - buffer_bottom
  if draw_border then
    { min_x := min_x, min_y := min_y, max_x := max_x, max_y := max_y
      cursor_min_x := min_x + 1, cursor_max_x := max_x - 1
      cursor_min_y := min_y + 1, cursor_max_y := max_y - 1 }
  else
    { min_x := min_x, min_y := min_y, max_x := max_x, max_y := max_y
      cursor_min_x := min_x, cursor_max_x := max_x
      cursor_min_y := min_y, cursor_max_y := max_y }

/-- The boundaries a window with configuration `c` computes: terminal size
and buffers never change after construction, so `update_boundaries` is a
pure function of the configuration. -/
def Config.bounds (c : Config) : Bounds :=
  update_boundaries c.cols c.lines c.buffer_top c.buffer_bottom
    c.buffer_left c.buffer_right c.draw_border

/-- The integers from `a` to `b` inclusive, as Python `range(a, b + 1)`. -/
def int_range (a b : Int) : List Int :=
  (List.range (b - a + 1).toNat).map (fun i => a + (i : Int))

/-- `Window.draw_box` (lines 75-87): the paints of the border glyphs. -/
def draw_box (b : Bounds) : List Paint :=
  ((int_range b.min_y b.max_y).map
      (fun y => [Paint.mk y b.min_x '|' 0, Paint.mk y b.max_x '|' 0])).flatten
    ++ ((int_range b.min_x b.max_x).map
      (fun x => [Paint.mk b.min_y x '-' 0, Paint.mk b.max_y x '-' 0])).flatten

/-- `Window.cursor_position_in_bounds` (lines 89-101). -/
def cursor_position_in_bounds (b : Bounds) (x y : Int) : Bool :=
  if ¬(b.cursor_min_x ≤ x ∧ x ≤ b.cursor_max_x) ∨
      ¬(b.cursor_min_y ≤ y ∧ y ≤ b.cursor_max_y) then
    false
  else
    true

/-- The mutable state of a `Window`: the nullable cursor coordinates and
the paint events on the screen since the last `stdscr.clear()`. -/
structure WindowState where
  cursor_x : Option Int
  cursor_y : Option Int
  screen : List Paint
deriving Repr, DecidableEq

/-- `Window.update_cursor` (lines 103-140): reject an out-of-bounds target
before any mutation; otherwise paint the old position (when one exists)
with `prev_point_char` and color pair 1, paint the new position with
`curr_point_char` and color pair 2, and record the new coordinates. -/
def update_cursor (cfg : Config) (s : WindowState) (x y : Int) :
    Except Err WindowState :=
  if cursor_position_in_bounds cfg.bounds x y = false then
    .error .OutOfBounds
  else
    let screen1 :=
      match s.cursor_x, s.cursor_y with
      | some cx, some cy =>
          s.screen ++ [Paint.mk cy cx cfg.prev_point_char 1]
      | _, _ => s.screen
    .ok { cursor_x := some x
          cursor_y := some y
          screen := screen1 ++ [Paint.mk y x cfg.curr_point_char 2] }

/-- The candidate position computed by the direction dispatch of
`Window.move_cursor` (lines 158-165): the current position offset by
`distance` along exactly one axis. -/
def move_candidate (cx cy : Int) (d : Direction) (distance : Int) :
    Int × Int :=
  match d with
  | .LEFT => (cx - distance, cy)
  | .RIGHT => (cx + distance, cy)
  | .UP => (cx, cy - distance)
  | .DOWN => (cx, cy + distance)

/-- `Window.move_cursor` (lines 142-175).  `direction` is `some d` when
the argument is a member of the `Direction` enum and `none` for any other
value, which falls through every `==` comparison into the final `raise`.
A `distance` below 1 raises first; with a recognized direction and a
placed cursor, an out-of-bounds candidate is reported as `false` with no
state change, and an in-bounds candidate is enacted by `update_cursor`. -/
def move_cursor (cfg : Config) (s : WindowState)
    (direction : Option Direction) (distance : Int) :
    Except Err (Bool × WindowState) :=
  if distance < 1 then
    .error .BadDistance
  else
    match direction with
    | none => .error .BadDirection
    | some d =>
      match s.cursor_x, s.cursor_y with
      | some cx, some cy =>
        let p := move_candidate cx cy d distance
        if cursor_position_in_bounds cfg.bounds p.1 p.2 = false then
          .ok (false, s)
        else
          match update_cursor cfg s p.1 p.2 with
          | .ok s2 => .ok (true, s2)
          | .error e => .error e
      | _, _ => .error .TypeFault

/-- The paints of the header message: `stdscr.addstr(0, 0, message)`
writes the characters of `message` starting at row 0, column 0. -/
def message_paints (m : Option String) : List Paint :=
  match m with
  | none => []
  | some text => text.toList.enum.map (fun p => Paint.mk 0 (p.1 : Int) p.2 0)

/-- `Window.draw_initial_screen` (lines 177-208): clear the screen,
recompute boundaries, write the message and the border, then either reset
the cursor coordinates to `None` and place the cursor at the configured
initial coordinates (`reset_cursor = true`), or re-place it at its current
coordinates (`reset_cursor = false`). -/
def draw_initial_screen (cfg : Config) (s : WindowState)
    (reset_cursor : Bool) : Except Err WindowState :=
  let b := cfg.bounds
  let screen2 := message_paints cfg.message
  let screen3 := if cfg.draw_border then screen2 ++ draw_box b else screen2
  if reset_cursor then
    update_cursor cfg
      { cursor_x := none, cursor_y := none, screen := screen3 }
      cfg.initial_cursor_x cfg.initial_cursor_y
  else
    match s.cursor_x, s.cursor_y with
    | some cx, some cy =>
        update_cursor cfg
          { cursor_x := some cx, cursor_y := some cy, screen := screen3 }
          cx cy
    | _, _ => .error .TypeFault

/-- `Window.__init__` ends by calling `draw_initial_screen()` (line 53)
with the default `reset_cursor=True` on a window with no cursor yet. -/
def window_init (cfg : Config) : Except Err WindowState :=
  draw_initial_screen cfg
    { cursor_x := none, cursor_y := none, screen := [] } true

/-- One operation of the main loop (lines 249-274) or of the public
`Window` interface: a cursor placement, a move, or a clear/redraw. -/
inductive Step (cfg : Config) : WindowState → WindowState → Prop where
  | set (s s2 : WindowState) (x y : Int) :
      update_cursor cfg s x y = .ok s2 → Step cfg s s2
  | move (s s2 : WindowState) (direction : Option Direction)
      (distance : Int) (moved : Bool) :
      move_cursor cfg s direction distance = .ok (moved, s2) →
      Step cfg s s2
  | clear (s s2 : WindowState) (reset_cursor : Bool) :
      draw_initial_screen cfg s reset_cursor = .ok s2 → Step cfg s s2

/-- The states a session can be in: the constructor's initial draw
succeeded, followed by any number of successful operations. -/
inductive Reachable (cfg : Config) : WindowState → Prop where
  | boot (s : WindowState) : window_init cfg = .ok s → Reachable cfg s
  | step (s s2 : WindowState) :
      Reachable cfg s → Step cfg s s2 → Reachable cfg s2

/-- The global invariant: whenever the cursor has coordinates, they lie
inside the cursor-legal rectangle. -/
def cursorInBounds (cfg : Config) (s : WindowState) : Prop :=
  ∀ x y, s.cursor_x = some x → s.cursor_y = some y →
    cursor_position_in_bounds cfg.bounds x y = true

/-! ### Concrete demonstration windows -/

/-- A 20x10 terminal, all buffers 1, border drawn, default cursor: the
window rectangle is x in 1..17, y in 2..8, the cursor rectangle x in
2..16, y in 3..7, and the derived initial position (2, 3). -/
def cfg0 : Config :=
  window_init_config 20 10 none none 1 1 1 1 '#' '@' none true

/-- The state produced by the constructor of `cfg0`. -/
def demo_boot : WindowState :=
  (window_init cfg0).toOption.getD
    { cursor_x := none, cursor_y := none, screen := [] }

/-- A window without a border whose cursor rectangle is x in 2..10,
y in 2..5, the inner rectangle of the scenario in the specification. -/
def cfg2 : Config :=
  window_init_config 13 7 (some 3) (some 3) 1 1 2 1 '#' '@' none false

/-- The `cfg2` window with its cursor at (3, 3) on a blank screen. -/
def demo2 : WindowState :=
  { cursor_x := some 3, cursor_y := some 3, screen := [] }

/-! ### Helper lemmas -/

theorem update_cursor_ok (cfg : Config) (s : WindowState) (x y : Int)
    (s2 : WindowState) (h : update_cursor cfg s x y = .ok s2) :
    cursor_position_in_bounds cfg.bounds x y = true ∧
    s2.cursor_x = some x ∧ s2.cursor_y = some y := by
  unfold update_cursor at h
  cases hb : cursor_position_in_bounds cfg.bounds x y with
  | false => rw [hb] at h; simp at h
  | true =>
    rw [hb] at h
    simp only [Bool.true_eq_false, if_false, Except.ok.injEq] at h
    exact ⟨rfl, by rw [← h], by rw [← h]⟩

theorem update_cursor_preserves (cfg : Config) (s : WindowState)
    (x y : Int) (s2 : WindowState)
    (h : update_cursor cfg s x y = .ok s2) : cursorInBounds cfg s2 := by
  obtain ⟨hb, hx, hy⟩ := update_cursor_ok cfg s x y s2 h
  intro a b ha hb2
  rw [hx] at ha
  rw [hy] at hb2
  cases ha
  cases hb2
  exact hb

theorem draw_initial_preserves (cfg : Config) (s : WindowState)
    (rc : Bool) (s2 : WindowState)
    (h : draw_initial_screen cfg s rc = .ok s2) : cursorInBounds cfg s2 := by
  unfold draw_initial_screen at h
  cases rc with
  | true =>
    simp only [if_true, eq_self_iff_true] at h
    exact update_cursor_preserves _ _ _ _ _ h
  | false =>
    simp only [Bool.false_eq_true, if_false] at h
    cases hcx : s.cursor_x with
    | none => rw [hcx] at h; simp at h
    | some cx =>
      cases hcy : s.cursor_y with
      | none => rw [hcx, hcy] at h; simp at h
      | some cy =>
        rw [hcx, hcy] at h
        simp only at h
        exact update_cursor_preserves _ _ _ _ _ h

theorem move_cursor_preserves (cfg : Config) (s : WindowState)
    (direction : Option Direction) (distance : Int) (moved : Bool)
    (s2 : WindowState)
    (h : move_cursor cfg s direction distance = .ok (moved, s2))
    (hs : cursorInBounds cfg s) : cursorInBounds cfg s2 := by
  unfold move_cursor at h
  by_cases hd : distance < 1
  · rw [if_pos hd] at h; simp at h
  · rw [if_neg hd] at h
    cases direction with
    | none => simp at h
    | some d =>
      cases hcx : s.cursor_x with
      | none => rw [hcx] at h; simp at h
      | some cx =>
        cases hcy : s.cursor_y with
        | none => rw [hcx, hcy] at h; simp at h
        | some cy =>
          rw [hcx, hcy] at h
          simp only at h
          cases hb : cursor_position_in_bounds cfg.bounds
              (move_candidate cx cy d distance).1
              (move_candidate cx cy d distance).2 with
          | false =>
            rw [hb] at h
            simp at h
            obtain ⟨h1, h2⟩ := h
            subst h2
            exact hs
          | true =>
            rw [hb] at h
            simp at h
            cases hu : update_cursor cfg s (move_candidate cx cy d distance).1
                (move_candidate cx cy d distance).2 with
            | ok s3 =>
              rw [hu] at h
              simp at h
              obtain ⟨h1, h2⟩ := h
              subst h2
              exact update_cursor_preserves _ _ _ _ _ hu
            | error e => rw [hu] at h; simp at h

/-! ### C1 -/

/-- Claim C1: every reachable state of the system satisfies the global
invariant: whenever the cursor has a position, that position lies inside
the cursor-legal rectangle.  Each operation (`update_cursor`,
`move_cursor`, `draw_initial_screen`) performs its bounds check before any
mutation, so a successful operation always leaves the cursor in bounds. -/
theorem c1_reachable_cursor_in_bounds (cfg : Config) (s : WindowState)
    (h : Reachable cfg s) : cursorInBounds cfg s := by
  induction h with
  | boot s h0 => exact draw_initial_preserves _ _ _ _ h0
  | step s s2 _ hstep ih =>
    cases hstep with
    | set x y hu => exact update_cursor_preserves _ _ _ _ _ hu
    | move direction distance moved hm =>
      exact move_cursor_preserves _ _ _ _ _ _ hm ih
    | clear rc hc => exact draw_initial_preserves _ _ _ _ hc

/-- Witness for C1 at the concrete window `cfg0`: its boot state is
reachable and the theorem applies to it. -/
theorem c1_reachable_cursor_in_bounds_witness : cursorInBounds cfg0 demo_boot :=
  c1_reachable_cursor_in_bounds cfg0 demo_boot
    (Reachable.boot demo_boot (by rfl))

theorem update_cursor_total (cfg : Config) (s : WindowState) (x y : Int)
    (hb : cursor_position_in_bounds cfg.bounds x y = true) :
    ∃ s2, update_cursor cfg s x y = .ok s2 := by
  unfold update_cursor
  rw [hb]
  simp

/-! ### C2 -/

/-- The state of the `cfg2` window after the first scenario move: cursor
at (2, 3), trail glyph painted at the vacated (3, 3). -/
def demo2b : WindowState :=
  { cursor_x := some 2
    cursor_y := some 3
    screen := [Paint.mk 3 3 '#' 1, Paint.mk 3 2 '@' 2] }

/-- Claim C2: for a placed cursor, a recognized direction and a distance
of at least 1, `move_cursor` offsets the position by `distance` along
exactly one axis (`move_candidate`), and when the candidate is inside the
cursor rectangle the move succeeds, the position becomes the candidate and
the caller is told the cursor moved.  In the scenario window `cfg2`
(cursor rectangle x in 2..10, y in 2..5, cursor at (3, 3)): LEFT by 1
succeeds giving (2, 3); LEFT by 1 again is rejected leaving (2, 3); DOWN
by 10 is rejected leaving (2, 3). -/
theorem c2_move_offsets_one_axis :
    (∀ (cfg : Config) (s : WindowState) (cx cy distance : Int)
        (d : Direction),
      s.cursor_x = some cx → s.cursor_y = some cy → 1 ≤ distance →
      cursor_position_in_bounds cfg.bounds
        (move_candidate cx cy d distance).1
        (move_candidate cx cy d distance).2 = true →
      ∃ s2, move_cursor cfg s (some d) distance = .ok (true, s2) ∧
        s2.cursor_x = some (move_candidate cx cy d distance).1 ∧
        s2.cursor_y = some (move_candidate cx cy d distance).2)
    ∧ (move_cursor cfg2 demo2 (some Direction.LEFT) 1 = .ok (true, demo2b) ∧
      demo2b.cursor_x = some 2 ∧ demo2b.cursor_y = some 3 ∧
      move_cursor cfg2 demo2b (some Direction.LEFT) 1 = .ok (false, demo2b) ∧
      move_cursor cfg2 demo2b (some Direction.DOWN) 10 =
        .ok (false, demo2b)) := by
  constructor
  · intro cfg s cx cy distance d hx hy hdist hb
    unfold move_cursor
    rw [if_neg (by omega), hx, hy]
    simp only
    rw [hb]
    simp only [Bool.true_eq_false, if_false]
    obtain ⟨s2, hu⟩ := update_cursor_total cfg s
      (move_candidate cx cy d distance).1
      (move_candidate cx cy d distance).2 hb
    rw [hu]
    obtain ⟨_, hcx, hcy⟩ := update_cursor_ok _ _ _ _ _ hu
    exact ⟨s2, rfl, hcx, hcy⟩
  · refine ⟨by rfl, rfl, rfl, by rfl, by rfl⟩

/-- Witness for C2 at a concrete input: moving RIGHT by 1 from (3, 3)
in the `cfg2` window succeeds and lands on the candidate (4, 3). -/
theorem c2_move_offsets_one_axis_witness :
    ∃ s2, move_cursor cfg2 demo2 (some Direction.RIGHT) 1 = .ok (true, s2) ∧
      s2.cursor_x = some (move_candidate 3 3 Direction.RIGHT 1).1 ∧
      s2.cursor_y = some (move_candidate 3 3 Direction.RIGHT 1).2 :=
  c2_move_offsets_one_axis.left cfg2 demo2 3 3 1 Direction.RIGHT rfl rfl
    (by decide) (by decide)

/-! ### C3 -/

/-- Claim C3 counterexample: at a 20x10 terminal with all margins 1, the
specification formula gives an outer rectangle [1, 18] x [1, 8], but
`update_boundaries` computes `max_x = 17` (it subtracts 2, not 1, from the
width) and `min_y = 2` (it adds 1 to the top margin). -/
theorem c3_counterexample :
    (update_boundaries 20 10 1 1 1 1 true).max_x ≠ 20 - 1 - 1 ∧
    (update_boundaries 20 10 1 1 1 1 true).min_y ≠ 1 := by
  decide

/-- Claim C3 amended: recomputing the bounds yields the outer rectangle
[buffer_left, cols - 2 - buffer_right] x [buffer_top + 1,
lines - 1 - buffer_bottom], and the inner rectangle equals the outer
rectangle shrunk by one unit on every side when a border is enabled and
equals the outer rectangle otherwise. -/
theorem c3_amended_boundary_formulas :
    ∀ (cols lines bt bb bl br : Int),
    update_boundaries cols lines bt bb bl br true =
      { min_x := bl, min_y := bt + 1
        max_x := cols - 2 - br, max_y := lines - 1 - bb
        cursor_min_x := bl + 1, cursor_max_x := cols - 2 - br - 1
        cursor_min_y := bt + 1 + 1, cursor_max_y := lines - 1 - bb - 1 } ∧
    update_boundaries cols lines bt bb bl br false =
      { min_x := bl, min_y := bt + 1
        max_x := cols - 2 - br, max_y := lines - 1 - bb
        cursor_min_x := bl, cursor_max_x := cols - 2 - br
        cursor_min_y := bt + 1, cursor_max_y := lines - 1 - bb } :=
  fun _ _ _ _ _ _ => ⟨rfl, rfl⟩

/-! ### C9 -/

/-- Membership in the outer (window) rectangle of `update_boundaries`. -/
def in_window_rect (b : Bounds) (x y : Int) : Prop :=
  b.min_x ≤ x ∧ x ≤ b.max_x ∧ b.min_y ≤ y ∧ y ≤ b.max_y

/-- Membership in the inner (cursor-legal) rectangle. -/
def in_cursor_rect (b : Bounds) (x y : Int) : Prop :=
  b.cursor_min_x ≤ x ∧ x ≤ b.cursor_max_x ∧
  b.cursor_min_y ≤ y ∧ y ≤ b.cursor_max_y

/-- Claim C9: whenever the computed outer rectangle is nonempty, the inner
rectangle is strictly contained in the outer rectangle when the border
flag is enabled, and coincides with it when the border flag is
disabled. -/
theorem c9_inner_strictly_inside_outer
    (cols lines bt bb bl br : Int) (border : Bool)
    (h1 : (update_boundaries cols lines bt bb bl br border).min_x ≤
      (update_boundaries cols lines bt bb bl br border).max_x)
    (h2 : (update_boundaries cols lines bt bb bl br border).min_y ≤
      (update_boundaries cols lines bt bb bl br border).max_y) :
    (border = true →
      (∀ x y, in_cursor_rect (update_boundaries cols lines bt bb bl br border) x y →
        in_window_rect (update_boundaries cols lines bt bb bl br border) x y) ∧
      ∃ x y, in_window_rect (update_boundaries cols lines bt bb bl br border) x y ∧
        ¬ in_cursor_rect (update_boundaries cols lines bt bb bl br border) x y) ∧
    (border = false →
      ∀ x y, in_cursor_rect (update_boundaries cols lines bt bb bl br border) x y ↔
        in_window_rect (update_boundaries cols lines bt bb bl br border) x y) := by
  cases border with
  | true =>
    simp only [update_boundaries] at h1 h2 ⊢
    refine ⟨fun _ => ⟨?_, ?_⟩, fun hf => by simp at hf⟩
    · intro x y hxy
      simp only [in_cursor_rect, in_window_rect] at hxy ⊢
      simp only [if_true, eq_self_iff_true] at hxy ⊢
      omega
    · refine ⟨bl, bt + 1, ?_, ?_⟩ <;>
        simp only [in_cursor_rect, in_window_rect, if_true, eq_self_iff_true] <;>
        simp at h1 h2 <;> omega
  | false =>
    refine ⟨fun hf => by simp at hf, fun _ => ?_⟩
    intro x y
    simp only [in_cursor_rect, in_window_rect, update_boundaries] at h1 h2 ⊢
    simp only [Bool.false_eq_true, if_false]

/-- Witness for C9 at the concrete bounds of a 20x10 terminal with all
margins 1 and a border. -/
theorem c9_inner_strictly_inside_outer_witness :
    (true = true →
      (∀ x y, in_cursor_rect (update_boundaries 20 10 1 1 1 1 true) x y →
        in_window_rect (update_boundaries 20 10 1 1 1 1 true) x y) ∧
      ∃ x y, in_window_rect (update_boundaries 20 10 1 1 1 1 true) x y ∧
        ¬ in_cursor_rect (update_boundaries 20 10 1 1 1 1 true) x y) ∧
    (true = false →
      ∀ x y, in_cursor_rect (update_boundaries 20 10 1 1 1 1 true) x y ↔
        in_window_rect (update_boundaries 20 10 1 1 1 1 true) x y) :=
  c9_inner_strictly_inside_outer 20 10 1 1 1 1 true (by decide) (by decide)

/-! ### C10 -/

/-- A `Window` constructed without explicit cursor coordinates, so both
initial coordinates are derived from the margins and the border flag. -/
def default_cursor_config (cols lines bt bb bl br : Int) (pc cc : Char)
    (msg : Option String) (border : Bool) : Config :=
  window_init_config cols lines none none bt bb bl br pc cc msg border

theorem min_corner_in_bounds (b : Bounds)
    (h1 : b.cursor_min_x ≤ b.cursor_max_x)
    (h2 : b.cursor_min_y ≤ b.cursor_max_y) :
    cursor_position_in_bounds b b.cursor_min_x b.cursor_min_y = true := by
  unfold cursor_position_in_bounds
  rw [if_neg]
  push_neg
  exact ⟨⟨le_refl _, h1⟩, le_refl _, h2⟩

/-- Claim C10: with no explicit initial coordinates, the derived initial
position is (buffer_left + 1, buffer_top + 2) with a border and
(buffer_left, buffer_top + 1) without, which is exactly the top-left
corner of the cursor-legal rectangle; hence whenever that rectangle is
nonempty the constructor's first cursor placement is in bounds and
succeeds, leaving the cursor at the initial position. -/
theorem c10_default_initial_position
    (cols lines bt bb bl br : Int) (pc cc : Char) (msg : Option String)
    (border : Bool) :
    ((default_cursor_config cols lines bt bb bl br pc cc msg border).initial_cursor_x =
        (default_cursor_config cols lines bt bb bl br pc cc msg border).bounds.cursor_min_x ∧
      (default_cursor_config cols lines bt bb bl br pc cc msg border).initial_cursor_y =
        (default_cursor_config cols lines bt bb bl br pc cc msg border).bounds.cursor_min_y) ∧
    ((default_cursor_config cols lines bt bb bl br pc cc msg border).initial_cursor_x =
        (if border then bl + 1 else bl) ∧
      (default_cursor_config cols lines bt bb bl br pc cc msg border).initial_cursor_y =
        (if border then bt + 2 else bt + 1)) ∧
    ((default_cursor_config cols lines bt bb bl br pc cc msg border).bounds.cursor_min_x ≤
        (default_cursor_config cols lines bt bb bl br pc cc msg border).bounds.cursor_max_x →
      (default_cursor_config cols lines bt bb bl br pc cc msg border).bounds.cursor_min_y ≤
        (default_cursor_config cols lines bt bb bl br pc cc msg border).bounds.cursor_max_y →
      ∃ s, window_init (default_cursor_config cols lines bt bb bl br pc cc msg border) = .ok s ∧
        s.cursor_x = some (default_cursor_config cols lines bt bb bl br pc cc msg border).initial_cursor_x ∧
        s.cursor_y = some (default_cursor_config cols lines bt bb bl br pc cc msg border).initial_cursor_y) := by
  refine ⟨?_, ?_, ?_⟩
  · cases border with
    | false =>
      simp [default_cursor_config, window_init_config, Config.bounds,
        update_boundaries]
    | true =>
      simp [default_cursor_config, window_init_config, Config.bounds,
        update_boundaries]
      omega
  · cases border <;>
      simp [default_cursor_config, window_init_config]
  · intro h1 h2
    have hinit : (default_cursor_config cols lines bt bb bl br pc cc msg border).initial_cursor_x =
        (default_cursor_config cols lines bt bb bl br pc cc msg border).bounds.cursor_min_x ∧
        (default_cursor_config cols lines bt bb bl br pc cc msg border).initial_cursor_y =
        (default_cursor_config cols lines bt bb bl br pc cc msg border).bounds.cursor_min_y := by
      cases border with
      | false =>
        simp [default_cursor_config, window_init_config, Config.bounds,
          update_boundaries]
      | true =>
        simp [default_cursor_config, window_init_config, Config.bounds,
          update_boundaries]
        omega
    have hb : cursor_position_in_bounds
        (default_cursor_config cols lines bt bb bl br pc cc msg border).bounds
        (default_cursor_config cols lines bt bb bl br pc cc msg border).initial_cursor_x
        (default_cursor_config cols lines bt bb bl br pc cc msg border).initial_cursor_y = true := by
      rw [hinit.1, hinit.2]
      exact min_corner_in_bounds _ h1 h2
    unfold window_init draw_initial_screen
    simp only [if_true, eq_self_iff_true]
    obtain ⟨s, hs⟩ := update_cursor_total
      (default_cursor_config cols lines bt bb bl br pc cc msg border) _
      (default_cursor_config cols lines bt bb bl br pc cc msg border).initial_cursor_x
      (default_cursor_config cols lines bt bb bl br pc cc msg border).initial_cursor_y hb
    obtain ⟨_, hcx, hcy⟩ := update_cursor_ok _ _ _ _ _ hs
    exact ⟨s, hs, hcx, hcy⟩

/-- Witness for C10: the 20x10 bordered window with margins 1 derives the
initial position (2, 3), the top-left corner of its cursor rectangle, and
its construction succeeds with the cursor there. -/
theorem c10_default_initial_position_witness :
    ∃ s, window_init (default_cursor_config 20 10 1 1 1 1 '#' '@' none true) = .ok s ∧
      s.cursor_x = some (default_cursor_config 20 10 1 1 1 1 '#' '@' none true).initial_cursor_x ∧
      s.cursor_y = some (default_cursor_config 20 10 1 1 1 1 '#' '@' none true).initial_cursor_y :=
  (c10_default_initial_position 20 10 1 1 1 1 '#' '@' none true).2.2
    (by decide) (by decide)

/-! ### C4 -/

theorem message_paints_pair (m : Option String) :
    ∀ p ∈ message_paints m, p.pair = 0 := by
  cases m with
  | none => simp [message_paints]
  | some text =>
    intro p hp
    simp only [message_paints, List.mem_map] at hp
    obtain ⟨a, _, ha⟩ := hp
    rw [← ha]

theorem draw_box_pair (b : Bounds) : ∀ p ∈ draw_box b, p.pair = 0 := by
  intro p hp
  simp only [draw_box, List.mem_append, List.mem_flatten, List.mem_map] at hp
  rcases hp with ⟨l, ⟨yy, _, hl⟩, hpl⟩ | ⟨l, ⟨xx, _, hl⟩, hpl⟩ <;>
    rw [← hl] at hpl <;> simp at hpl <;> rcases hpl with h | h <;> rw [h]

theorem update_cursor_unset_screen (cfg : Config) (s : WindowState)
    (x y : Int) (s2 : WindowState) (hcx : s.cursor_x = none)
    (h : update_cursor cfg s x y = .ok s2) :
    s2.screen = s.screen ++ [Paint.mk y x cfg.curr_point_char 2] := by
  unfold update_cursor at h
  cases hb : cursor_position_in_bounds cfg.bounds x y with
  | false => rw [hb] at h; simp at h
  | true =>
    rw [hb] at h
    simp only [Bool.true_eq_false, if_false, Except.ok.injEq] at h
    rw [hcx] at h
    rw [← h]

/-- The `cfg0` window with its cursor at (5, 5), away from the initial
position (2, 3), with some trail already drawn. -/
def demoA : WindowState :=
  { cursor_x := some 5, cursor_y := some 5
    screen := [Paint.mk 3 2 '#' 1, Paint.mk 5 5 '@' 2] }

/-- The state the main loop's clear handler
(`draw_initial_screen(reset_cursor=False)`, line 264) produces from
`demoA`. -/
def demoA2 : WindowState :=
  (draw_initial_screen cfg0 demoA false).toOption.getD
    { cursor_x := none, cursor_y := none, screen := [] }

/-- Claim C4 counterexample: in the `cfg0` window with the cursor at
(5, 5), the clear operation as invoked by the main loop
(`reset_cursor=False`) leaves the cursor at (5, 5), not at the configured
initial coordinates (2, 3), and it paints the pre-clear position (5, 5)
with the trail glyph (color pair 1). -/
theorem c4_counterexample :
    draw_initial_screen cfg0 demoA false = .ok demoA2 ∧
    demoA2.cursor_x = some 5 ∧ demoA2.cursor_y = some 5 ∧
    cfg0.initial_cursor_x = 2 ∧ cfg0.initial_cursor_y = 3 ∧
    demoA2.screen.any (fun p => p.pair == 1 && p.x == 5 && p.y == 5) = true := by
  exact ⟨by rfl, by rfl, by rfl, by rfl, by rfl, by rfl⟩

/-- Claim C4 amended: `draw_initial_screen` resets the cursor to the
configured initial coordinates only when called with `reset_cursor=True`,
and then no paint after the clear uses the trail style (color pair 1); the
main loop's clear handler instead passes `reset_cursor=False`, which keeps
the cursor at its pre-clear position (repainting that position), so the
position is NOT reset to the initial coordinates. -/
theorem c4_amended_clear_keeps_position (cfg : Config) (s : WindowState)
    (cx cy : Int) (hx : s.cursor_x = some cx) (hy : s.cursor_y = some cy) :
    (∀ s2, draw_initial_screen cfg s false = .ok s2 →
      s2.cursor_x = some cx ∧ s2.cursor_y = some cy) ∧
    (∀ s2, draw_initial_screen cfg s true = .ok s2 →
      s2.cursor_x = some cfg.initial_cursor_x ∧
      s2.cursor_y = some cfg.initial_cursor_y ∧
      ∀ p ∈ s2.screen, p.pair ≠ 1) := by
  constructor
  · intro s2 h
    unfold draw_initial_screen at h
    simp only [Bool.false_eq_true, if_false] at h
    rw [hx, hy] at h
    simp only at h
    obtain ⟨_, hcx, hcy⟩ := update_cursor_ok _ _ _ _ _ h
    exact ⟨hcx, hcy⟩
  · intro s2 h
    unfold draw_initial_screen at h
    simp only [if_true, eq_self_iff_true] at h
    obtain ⟨_, hcx, hcy⟩ := update_cursor_ok _ _ _ _ _ h
    have hscreen := update_cursor_unset_screen _ _ _ _ _ rfl h
    refine ⟨hcx, hcy, ?_⟩
    intro p hp
    rw [hscreen] at hp
    simp only [List.mem_append, List.mem_singleton] at hp
    rcases hp with hp | hp
    · by_cases hd : cfg.draw_border = true
      · rw [if_pos hd] at hp
        rcases List.mem_append.mp hp with hp2 | hp2
        · rw [message_paints_pair _ p hp2]; decide
        · rw [draw_box_pair _ p hp2]; decide
      · rw [if_neg hd] at hp
        rw [message_paints_pair _ p hp]; decide
    · simp [hp]

/-- Witness for C4 amended at the concrete window `cfg0` and state
`demoA`. -/
theorem c4_amended_clear_keeps_position_witness :
    demoA2.cursor_x = some 5 ∧ demoA2.cursor_y = some 5 :=
  (c4_amended_clear_keeps_position cfg0 demoA 5 5 rfl rfl).1 demoA2 (by rfl)

/-! ### C5 -/

/-- Claim C5: a move whose candidate falls outside the cursor rectangle is
rejected without an error: the call returns `false` with the state (cursor
position and screen) unchanged, and repeating the same out-of-bounds move
yields the same outcome and identical state both times. -/
theorem c5_rejected_move_is_silent_noop (cfg : Config) (s : WindowState)
    (cx cy : Int) (d : Direction) (distance : Int)
    (hx : s.cursor_x = some cx) (hy : s.cursor_y = some cy)
    (hdist : 1 ≤ distance)
    (hb : cursor_position_in_bounds cfg.bounds
      (move_candidate cx cy d distance).1
      (move_candidate cx cy d distance).2 = false) :
    move_cursor cfg s (some d) distance = .ok (false, s) ∧
    (∀ moved s2, move_cursor cfg s (some d) distance = .ok (moved, s2) →
      moved = false ∧ s2 = s ∧
      move_cursor cfg s2 (some d) distance = .ok (false, s2)) := by
  have hfirst : move_cursor cfg s (some d) distance = .ok (false, s) := by
    unfold move_cursor
    rw [if_neg (by omega), hx, hy]
    simp only
    rw [hb]
    simp
  refine ⟨hfirst, ?_⟩
  intro moved s2 h
  rw [hfirst] at h
  simp only [Except.ok.injEq, Prod.mk.injEq] at h
  obtain ⟨hm, hs2⟩ := h
  subst hs2
  exact ⟨hm.symm, rfl, hfirst⟩

/-- Witness for C5: in the scenario window `cfg2` with the cursor at
(2, 3), moving LEFT by 1 would reach x = 1, outside the cursor rectangle,
and is rejected with identical state both times. -/
theorem c5_rejected_move_is_silent_noop_witness :
    move_cursor cfg2 demo2b (some Direction.LEFT) 1 = .ok (false, demo2b) ∧
    (∀ moved s2,
      move_cursor cfg2 demo2b (some Direction.LEFT) 1 = .ok (moved, s2) →
      moved = false ∧ s2 = demo2b ∧
      move_cursor cfg2 s2 (some Direction.LEFT) 1 = .ok (false, s2)) :=
  c5_rejected_move_is_silent_noop cfg2 demo2b 2 3 Direction.LEFT 1 rfl rfl
    (by decide) (by decide)

/-! ### C6 -/

/-- Claim C6: `update_cursor` (the set_position operation) succeeds
exactly when the target is inside the cursor rectangle: on success the
recorded position equals the target; on failure it raises the
out-of-bounds ValueError before any mutation, so the window keeps its
prior state (an unset cursor stays unset). -/
theorem c6_set_position_in_bounds_iff (cfg : Config) (s : WindowState)
    (x y : Int) :
    (cursor_position_in_bounds cfg.bounds x y = true →
      ∃ s2, update_cursor cfg s x y = .ok s2 ∧
        s2.cursor_x = some x ∧ s2.cursor_y = some y) ∧
    (cursor_position_in_bounds cfg.bounds x y = false →
      update_cursor cfg s x y = .error .OutOfBounds) := by
  constructor
  · intro hb
    obtain ⟨s2, hs⟩ := update_cursor_total cfg s x y hb
    obtain ⟨_, hcx, hcy⟩ := update_cursor_ok _ _ _ _ _ hs
    exact ⟨s2, hs, hcx, hcy⟩
  · intro hb
    unfold update_cursor
    rw [hb]
    simp

/-- Witness for C6 on an unset (freshly cleared) window state of `cfg0`:
placement at (2, 3) succeeds and records that position; placement at
(0, 0) fails with the out-of-bounds error. -/
theorem c6_set_position_in_bounds_iff_witness :
    (∃ s2, update_cursor cfg0
        { cursor_x := none, cursor_y := none, screen := [] } 2 3 = .ok s2 ∧
      s2.cursor_x = some 2 ∧ s2.cursor_y = some 3) ∧
    update_cursor cfg0 { cursor_x := none, cursor_y := none, screen := [] }
      0 0 = .error .OutOfBounds :=
  ⟨(c6_set_position_in_bounds_iff cfg0
      { cursor_x := none, cursor_y := none, screen := [] } 2 3).1 (by decide),
   (c6_set_position_in_bounds_iff cfg0
      { cursor_x := none, cursor_y := none, screen := [] } 0 0).2 (by decide)⟩

/-! ### C7 -/

/-- A 5x5 terminal with all margins 10: far too small, the margins leave
negative width and height. -/
def cfg_small : Config :=
  window_init_config 5 5 none none 10 10 10 10 '#' '@' none true

/-- Claim C7 counterexample: on the too-small terminal of `cfg_small`,
computing the drawable bounds does not fail at all: `update_boundaries`
silently returns an inverted rectangle (max below min on both axes); the
code has no ConfigError.  Constructing the window then fails at the first
cursor placement with the out-of-bounds ValueError instead. -/
theorem c7_counterexample :
    (cfg_small.bounds.max_x < cfg_small.bounds.min_x ∧
      cfg_small.bounds.max_y < cfg_small.bounds.min_y) ∧
    update_boundaries 5 5 10 10 10 10 true =
      { min_x := 10, min_y := 11, max_x := -7, max_y := -6
        cursor_min_x := 11, cursor_max_x := -8
        cursor_min_y := 12, cursor_max_y := -7 } ∧
    window_init cfg_small = .error .OutOfBounds :=
  ⟨by decide, by rfl, by rfl⟩

/-- Claim C7 amended: computing the drawable bounds never fails; there is
no size validation and no ConfigError.  When the margins leave an empty
cursor rectangle, the initial draw instead fails at the cursor placement
with the out-of-bounds ValueError, so no cursor is ever placed. -/
theorem c7_amended_no_config_validation (cfg : Config) (s : WindowState)
    (hempty : cfg.bounds.cursor_max_x < cfg.bounds.cursor_min_x ∨
      cfg.bounds.cursor_max_y < cfg.bounds.cursor_min_y) :
    draw_initial_screen cfg s true = .error .OutOfBounds := by
  have hb : cursor_position_in_bounds cfg.bounds
      cfg.initial_cursor_x cfg.initial_cursor_y = false := by
    unfold cursor_position_in_bounds
    rw [if_pos (by omega)]
  unfold draw_initial_screen
  simp only [if_true, eq_self_iff_true]
  unfold update_cursor
  rw [hb]
  simp

/-- Witness for C7 amended at the too-small window `cfg_small`. -/
theorem c7_amended_no_config_validation_witness :
    draw_initial_screen cfg_small
      { cursor_x := none, cursor_y := none, screen := [] } true =
      .error .OutOfBounds :=
  c7_amended_no_config_validation cfg_small
    { cursor_x := none, cursor_y := none, screen := [] } (by decide)

/-! ### C8 -/

/-- Claim C8: `move_cursor` fails with the InvalidArgument ValueError for
every distance below 1 (raised before anything else, for any direction
argument) and for every unrecognized direction token (any value that is
not a member of the `Direction` enum); the error is raised before any
mutation, so the failed call does not modify the cursor position. -/
theorem c8_invalid_arguments (cfg : Config) (s : WindowState)
    (direction : Option Direction) (distance : Int) :
    (distance < 1 →
      move_cursor cfg s direction distance = .error .BadDistance) ∧
    (1 ≤ distance →
      move_cursor cfg s none distance = .error .BadDirection) := by
  constructor
  · intro h
    unfold move_cursor
    rw [if_pos h]
  · intro h
    unfold move_cursor
    rw [if_neg (by omega)]

/-- Witness for C8: distance 0 and the unrecognized direction each raise
on the booted `cfg0` window. -/
theorem c8_invalid_arguments_witness :
    move_cursor cfg0 demo_boot (some Direction.LEFT) 0 =
      .error .BadDistance ∧
    move_cursor cfg0 demo_boot none 5 = .error .BadDirection :=
  ⟨(c8_invalid_arguments cfg0 demo_boot (some Direction.LEFT) 0).1
      (by decide),
   (c8_invalid_arguments cfg0 demo_boot none 5).2 (by decide)⟩

end DrawWithCursor
